import Mathlib

/-!
Verification development for the slideslive slide downloader
(single Python source file, `slideslive-slides-dl.py`).

The Python program is shallowly embedded below:
* dynamically-typed Python values that flow through the slide records are
  modelled by `PyVal`; Python floats are modelled as exact fractions
  (numerator/denominator, never reduced, so every operation is
  kernel-computable); every arithmetic value actually exercised by the
  program on the inputs considered here is exactly representable, so the
  idealization is faithful on those inputs;
* operations that can raise a Python exception return `Except PyErr`;
* filesystem and network effects are modelled by explicit state passing
  over `FsState` (the set of existing local files plus the log of network
  fetches performed), with an oracle `String → Bool` deciding whether a
  given remote URL fetch succeeds (HTTP 2xx) or raises;
* the regular-expression URL parse in `get_video_id` is embedded as an
  explicit leftmost scanning matcher for the concrete pattern
  `https://slideslive\.(com|de)/([0-9]*)/([^/?]*)(.*)` used by the source.
-/

/-- Python exception kinds that the embedded fragments can raise. -/
inductive PyErr where
  | typeError
  | valueError
  | zeroDivisionError
  | fetchError
  deriving DecidableEq, Repr

/-- Dynamically-typed Python values flowing through slide records.
`float num den` is the exact rational `num / den`; the embedding never
reduces fractions, so all operations compute by structural recursion. -/
inductive PyVal where
  | int (n : Int)
  | float (num : Int) (den : Int)
  | str (s : String)
  | none
  deriving DecidableEq, Repr

/-- Python `/` (true division).  `int / int` yields a float; a `str` or
`None` operand raises `TypeError`; a zero divisor raises
`ZeroDivisionError`.  Denominators of produced floats are always positive
because every division performed by the program has divisor `1000`. -/
def pyDiv : PyVal → PyVal → Except PyErr PyVal
  | PyVal.int a, PyVal.int b =>
      if b = 0 then Except.error PyErr.zeroDivisionError
      else Except.ok (PyVal.float a b)
  | PyVal.int a, PyVal.float c d =>
      if c = 0 then Except.error PyErr.zeroDivisionError
      else Except.ok (PyVal.float (a * d) c)
  | PyVal.float a b, PyVal.int c =>
      if c = 0 then Except.error PyErr.zeroDivisionError
      else Except.ok (PyVal.float a (b * c))
  | PyVal.float a b, PyVal.float c d =>
      if c = 0 then Except.error PyErr.zeroDivisionError
      else Except.ok (PyVal.float (a * d) (b * c))
  | _, _ => Except.error PyErr.typeError

/-- Python `-` on the numeric values the program subtracts; mixed
int/float arithmetic promotes to float, any `str` or `None` operand
raises `TypeError` (this is what happens when the XML pipeline reaches
the playlist builder, since XML cell values are strings). -/
def pySub : PyVal → PyVal → Except PyErr PyVal
  | PyVal.int a, PyVal.int b => Except.ok (PyVal.int (a - b))
  | PyVal.float a b, PyVal.int c => Except.ok (PyVal.float (a - c * b) b)
  | PyVal.int a, PyVal.float c d => Except.ok (PyVal.float (a * d - c) d)
  | PyVal.float a b, PyVal.float c d => Except.ok (PyVal.float (a * d - c * b) (b * d))
  | _, _ => Except.error PyErr.typeError

/-- Numeric value of a decimal digit string (helper for `pyToInt`). -/
def digitsToNat (l : List Char) : Nat :=
  l.foldl (fun a c => a * 10 + (c.toNat - 48)) 0

/-- Python `int(x)`.  Floats truncate toward zero (`Int.tdiv`; every
float the program truncates has a positive denominator, where `tdiv`
coincides with Python truncation); plain decimal digit strings parse,
anything else raises. -/
def pyToInt : PyVal → Except PyErr Int
  | PyVal.int n => Except.ok n
  | PyVal.float a b => Except.ok (Int.tdiv a b)
  | PyVal.str s =>
      if s.toList ≠ [] ∧ s.toList.all Char.isDigit then
        Except.ok (Int.ofNat (digitsToNat s.toList))
      else Except.error PyErr.valueError
  | PyVal.none => Except.error PyErr.typeError

/-- Python `str(x)` as used by `format` on the values the program
formats: ints print in decimal, strings verbatim, `None` as `"None"`.
The program never formats a float, so that branch is an arbitrary
representation. -/
def pyStr : PyVal → String
  | PyVal.int n => toString n
  | PyVal.float a b => toString a ++ "/" ++ toString b
  | PyVal.str s => s
  | PyVal.none => "None"

/-- A single-quote character, used by the ffmpeg concat line format. -/
def squote : String := String.mk [Char.ofNat 39]

/-! ## JSON metadata model (`parse_json`) -/

/-- The nested `image` object of one slide entry of the v6 JSON
manifest: fields `name` and `extname`. -/
structure ImageRec where
  name : String
  extname : String
  deriving DecidableEq, Repr

/-- One entry of the `slides` array of a syntactically valid v6 JSON
manifest: a nested image record and a `time` value (kept as a `PyVal`,
copied verbatim by the parser). -/
structure RawJsonSlide where
  image : ImageRec
  time : PyVal
  deriving DecidableEq, Repr

/-- A syntactically valid v6 JSON manifest: a top-level `slides` array. -/
structure JsonManifest where
  slides : List RawJsonSlide
  deriving DecidableEq, Repr

/-- One slide dict produced by `parse_json`:
`dict(slideName=..., slideExt=..., time=...)`. -/
structure ParsedSlide where
  slideName : String
  slideExt : String
  time : PyVal
  deriving DecidableEq, Repr

/-- The dict returned by `parse_json`: `dict(slides=[...])`. -/
structure ParsedInfo where
  slides : List ParsedSlide
  deriving DecidableEq, Repr

/-- `parse_json` (source lines 39-46): for each entry of `parsed['slides']`
append `dict(slideName=slide['image']['name'], slideExt=slide['image']['extname'],
time=slide['time'])`. -/
def parse_json (m : JsonManifest) : ParsedInfo :=
  { slides := m.slides.map (fun slide =>
      { slideName := slide.image.name
        slideExt := slide.image.extname
        time := slide.time }) }

/-! ## XML metadata model (`parse_xml`) -/

/-- One XML row node: association from sub-element tag to its text
content (`Option.none` models an empty element, whose `.text` is Python
`None`). -/
abbrev XmlNode := List (String × Option String)

/-- One row of the DataFrame built by `parse_xml`: association from
column name to the cell value, a string or Python `None`. -/
abbrev XmlRow := List (String × Option String)

/-- `node.find(el)` of ElementTree: first sub-element with the given
tag, or nothing. -/
def node_find (node : XmlNode) (el : String) : Option (Option String) :=
  (node.find? (fun p => p.1 == el)).map Prod.snd

/-- `parse_xml` (source lines 11-37): one row per XML node; for each
requested column, the text of the matching sub-element when the
sub-element exists, `None` otherwise.  All cell values are strings (or
`None`) - the parser performs no numeric conversion. -/
def parse_xml (nodes : List XmlNode) (df_cols : List String) : List XmlRow :=
  nodes.map (fun node =>
    df_cols.map (fun el =>
      (el, match node_find node el with
           | some t => t
           | Option.none => Option.none)))

/-- pandas `row.get(col)` respectively `row[col]`: cell lookup in a row. -/
def row_get (row : XmlRow) (col : String) : Option (Option String) :=
  (row.find? (fun p => p.1 == col)).map Prod.snd

/-- A DataFrame cell as a Python value: a string or `None`. -/
def pyCell : Option String → PyVal
  | some s => PyVal.str s
  | Option.none => PyVal.none

/-! ## The rows consumed by `create_ffmpeg_concat_file` -/

/-- The view of a slide row taken by `create_ffmpeg_concat_file`:
`timeSec` is `some v` when the row has a `timeSec` key (XML DataFrame
rows; pandas `.get` then returns its value, even when that value is
`None`), and `Option.none` when the key is absent (JSON dict rows, where
`.get` falls back to the eagerly evaluated default `row['time']/1000`).
`time` and `slideName` are the values of the mandatory keys. -/
structure ConcatRow where
  timeSec : Option PyVal
  time : PyVal
  slideName : PyVal
  deriving DecidableEq, Repr

/-- A JSON slide dict as seen by the playlist builder: no `timeSec` key. -/
def concat_row_of_json (s : ParsedSlide) : ConcatRow :=
  { timeSec := Option.none
    time := s.time
    slideName := PyVal.str s.slideName }

/-- An XML DataFrame row as seen by the playlist builder.  For rows
produced by `parse_xml` with the program's fixed column list the three
lookups always succeed; the `PyVal.none` fallbacks are unreachable
there (a pandas lookup on a missing column would raise `KeyError`). -/
def concat_row_of_xml (row : XmlRow) : ConcatRow :=
  { timeSec := (row_get row "timeSec").map pyCell
    time := match row_get row "time" with
            | some c => pyCell c
            | Option.none => PyVal.none
    slideName := match row_get row "slideName" with
                 | some c => pyCell c
                 | Option.none => PyVal.none }

/-- The `file '<path>'` line format of the concat playlist. -/
def fileLine (path : String) : String :=
  "file " ++ squote ++ path ++ squote

/-- The `duration <seconds>` line format of the concat playlist. -/
def durLine (d : Int) : String :=
  "duration " ++ toString d

/-- The local path written into the playlist for one row (source
line 140): `'{3}-{1}-{2}.jpg'.format(folder_name, row['slideName'], size,
row['time'])`, i.e. `<time>-<slideName>-<size>.jpg` - the folder_name
argument (index 0) is unused by the format string. -/
def concat_row_file_path (row : ConcatRow) (size : String) : String :=
  pyStr row.time ++ "-" ++ pyStr row.slideName ++ "-" ++ size ++ ".jpg"

/-- The loop body of `create_ffmpeg_concat_file` (source lines 131-143).
Returns the lines written so far (a later exception does not unwrite
earlier lines) together with either the final `last_file_path` or the
exception that aborted the loop.  Mirrors the source order: the default
argument `row['time']/1000` of `row.get` is evaluated eagerly, then
`duration = int(time_sec - last_time)` is computed before the `index != 0`
test, then the duration line (inner rows only) and the file line are
written, then `last_time = int(time_sec)`. -/
def create_ffmpeg_go (size : String) (idx : Nat) (last_time : Int)
    (last_file_path : String) :
    List ConcatRow → List String × Except PyErr String
  | [] => ([], Except.ok last_file_path)
  | row :: rest =>
    match pyDiv row.time (PyVal.int 1000) with
    | Except.error e => ([], Except.error e)
    | Except.ok dflt =>
      let time_sec := match row.timeSec with
                      | some v => v
                      | Option.none => dflt
      match pySub time_sec (PyVal.int last_time) with
      | Except.error e => ([], Except.error e)
      | Except.ok diff =>
        match pyToInt diff with
        | Except.error e => ([], Except.error e)
        | Except.ok duration =>
          let fp := concat_row_file_path row size
          let head := (if idx = 0 then [] else [durLine duration]) ++ [fileLine fp]
          match pyToInt time_sec with
          | Except.error e => (head, Except.error e)
          | Except.ok lt =>
            let tail := create_ffmpeg_go size (idx + 1) lt fp rest
            (head ++ tail.1, tail.2)

/-- `create_ffmpeg_concat_file` (source lines 126-149), as the sequence
of lines written to `ffmpeg_concat.txt` (assuming the playlist file does
not already exist): the per-row loop starting from `last_time = 0`,
`last_file_path = ''`, then `duration 30` and a second bare file entry
for the last slide.  The second component reports an exception raised
inside the loop (the lines already written remain in the file). -/
def create_ffmpeg_concat_file (rows : List ConcatRow) (size : String) :
    List String × Except PyErr Unit :=
  match create_ffmpeg_go size 0 0 "" rows with
  | (lines, Except.ok last_file_path) =>
      (lines ++ [durLine 30, fileLine last_file_path], Except.ok ())
  | (lines, Except.error e) => (lines, Except.error e)

/-! ## Image URLs, local file names, size aliases -/

/-- `size_conversion.get(args.size, args.size)` (source lines 171-172):
the dict maps `big` to the int `1080` and `medium` to the int `540`; an
unrecognized token falls back to the token itself (a string). -/
def size_conversion_get (s : String) : PyVal :=
  if s = "big" then PyVal.int 1080
  else if s = "medium" then PyVal.int 540
  else PyVal.str s

/-- The JSON-schema remote image URL (source lines 99 and 104):
`base + '/{video_id}/slides/{slide_name}?h={size}&f=webp&s=lambda&accelerate_s3=1'`. -/
def json_image_url (base_url video_id slide_name : String) (size : PyVal) : String :=
  base_url ++ "/" ++ video_id ++ "/slides/" ++ slide_name ++ "?h=" ++ pyStr size ++
    "&f=webp&s=lambda&accelerate_s3=1"

/-- The JSON-schema local image path (source line 105):
`'{0}/{1}-{2}-{3}{4}'.format(folder_name, slide['slideName'], size,
slide['time'], slide['slideExt'])`. -/
def json_image_file_path (folder_name slideName : String) (size time : PyVal)
    (slideExt : String) : String :=
  folder_name ++ "/" ++ slideName ++ "-" ++ pyStr size ++ "-" ++ pyStr time ++ slideExt

/-- The XML-schema remote image URL (source lines 113 and 117):
`base + '/{0}/slides/{2}/{1}.jpg'` formatted with
`(video_id, row['slideName'], size)`. -/
def xml_image_url (base_url video_id : String) (slideName : PyVal) (size : String) : String :=
  base_url ++ "/" ++ video_id ++ "/slides/" ++ size ++ "/" ++ pyStr slideName ++ ".jpg"

/-- The XML-schema local image path (source line 118):
`'{0}/{3}-{1}-{2}.jpg'.format(folder_name, row['slideName'], size, row['time'])`. -/
def xml_image_file_path (folder_name : String) (slideName : PyVal) (size : String)
    (time : PyVal) : String :=
  folder_name ++ "/" ++ pyStr time ++ "-" ++ pyStr slideName ++ "-" ++ size ++ ".jpg"

/-! ## Filesystem / network state machine -/

/-- The effect state threaded through the downloaders: the local files
that exist, and the log of network fetches performed (one entry per
HTTP request issued, successful or not). -/
structure FsState where
  files : List String
  fetches : List String
  deriving DecidableEq, Repr

/-- `download_save_file` (source lines 56-61): unconditionally issues the
HTTP GET (so the fetch is logged even on failure), raises on a non-2xx
status per the oracle (`raise_for_status`), and writes the file only on
success (the exception fires before `open`).  The `time.sleep` delay has
no observable effect on this state and is not modelled. -/
def download_save_file (oracle : String → Bool) (url save_path : String)
    (st : FsState) : FsState × Except PyErr Unit :=
  let st1 : FsState := { files := st.files, fetches := st.fetches ++ [url] }
  if oracle url then
    ({ files := st1.files ++ [save_path], fetches := st1.fetches }, Except.ok ())
  else
    (st1, Except.error PyErr.fetchError)

/-- `download_slides_info_json` (source lines 89-96): skip the fetch when
`<folder>/slides.json` already exists, otherwise fetch
`<base>/<id>/v6/slides.json` into it; `Except.ok` stands for the opened
local file handed back to the caller. -/
def download_slides_info_json (oracle : String → Bool)
    (base_url video_id download_folder : String) (st : FsState) :
    FsState × Except PyErr Unit :=
  let file_path := download_folder ++ "/slides.json"
  if file_path ∈ st.files then (st, Except.ok ())
  else download_save_file oracle (base_url ++ "/" ++ video_id ++ "/v6/slides.json")
    file_path st

/-- `download_slides_info_xml` (source lines 80-87): skip the fetch when
`<folder>/<id>.xml` already exists, otherwise fetch
`<base>/<id>/<id>.xml` into it. -/
def download_slides_info_xml (oracle : String → Bool)
    (base_xml_url video_id download_folder : String) (st : FsState) :
    FsState × Except PyErr Unit :=
  let file_path := download_folder ++ "/" ++ video_id ++ ".xml"
  if file_path ∈ st.files then (st, Except.ok ())
  else download_save_file oracle (base_xml_url ++ "/" ++ video_id ++ "/" ++ video_id ++ ".xml")
    file_path st

/-- `download_slides_json` (source lines 98-110): for every slide of the
parsed JSON info, build the remote URL and local path and call
`download_save_file` - with no existence check - inside a
`try/except` that swallows any exception and continues with the next
slide, so the resulting state is taken from the attempt whether it
succeeded or raised. -/
def download_slides_json (oracle : String → Bool) (video_id video_name : String)
    (slides : List ParsedSlide) (size : PyVal) (base_url : String)
    (st : FsState) : FsState :=
  let folder_name := video_id ++ "-" ++ video_name
  slides.foldl (fun acc slide =>
    (download_save_file oracle
      (json_image_url base_url video_id (slide.slideName ++ slide.slideExt) size)
      (json_image_file_path folder_name slide.slideName size slide.time slide.slideExt)
      acc).1) st

/-- `download_slides_xml` (source lines 112-123): the XML-schema
counterpart of `download_slides_json`, same unconditional attempt and
same exception-swallowing loop over the DataFrame rows. -/
def download_slides_xml (oracle : String → Bool) (video_id video_name : String)
    (rows : List XmlRow) (size : String) (base_url : String)
    (st : FsState) : FsState :=
  let folder_name := video_id ++ "-" ++ video_name
  rows.foldl (fun acc row =>
    let slideName := match row_get row "slideName" with
                     | some c => pyCell c
                     | Option.none => PyVal.none
    let time := match row_get row "time" with
                | some c => pyCell c
                | Option.none => PyVal.none
    (download_save_file oracle
      (xml_image_url base_url video_id slideName size)
      (xml_image_file_path folder_name slideName size time)
      acc).1) st

/-! ## The metadata resolver and its schema dispatch -/

/-- Which metadata schema produced the resolved slide info; downstream
dispatch (source line 169) tests `isinstance(slides_info, dict)`. -/
inductive Schema where
  | json
  | xml
  deriving DecidableEq, Repr

/-- The value returned by `download_slides_info`: either the dict built
by `parse_json` or the DataFrame built by `parse_xml`. -/
inductive SlidesInfo where
  | jsonInfo (slides : List ParsedSlide)
  | xmlInfo (rows : List XmlRow)
  deriving DecidableEq, Repr

/-- The schema a `SlidesInfo` is dispatched under by `__main__`
(source lines 169-178): a dict goes to the JSON downloader and the
JSON-style playlist rows, anything else (the DataFrame) to the XML
downloader. -/
def schemaOf : SlidesInfo → Schema
  | SlidesInfo.jsonInfo _ => Schema.json
  | SlidesInfo.xmlInfo _ => Schema.xml

/-- `download_slides_info` (source lines 63-78).  The whole primary path
(fetch of `slides.json` plus `parse_json`) sits inside a bare
`try/except`, so ANY exception - transport failure, non-2xx status,
unparseable or structurally malformed JSON - selects the XML fallback.
The two attempts are abstracted as the `Except` outcomes of those
compound steps; an error value carries the kind of exception raised. -/
def download_slides_info (jsonAttempt : Except PyErr (List ParsedSlide))
    (xmlAttempt : Except PyErr (List XmlRow)) : Except PyErr SlidesInfo :=
  match jsonAttempt with
  | Except.ok slides => Except.ok (SlidesInfo.jsonInfo slides)
  | Except.error _ => xmlAttempt.map SlidesInfo.xmlInfo

/-! ## The URL resolver (`get_video_id`) -/

/-- The character class `[^/?]` of the URL pattern. -/
def isNameChar (c : Char) : Bool :=
  !(c == '/' || c == '?')

/-- Consume an exact literal from the front of the input, returning the
remainder on success. -/
def dropLit : List Char → List Char → Option (List Char)
  | [], s => some s
  | _ :: _, [] => Option.none
  | c :: p, d :: s => if c = d then dropLit p s else Option.none

/-- One anchored attempt of the pattern
`https://slideslive\.(com|de)/([0-9]*)/([^/?]*)(.*)` at the head of the
input, returning capture groups 2 and 3 (the id digits and the name).
Greedy matching without backtracking is exact here: the alternatives
`com`/`de` differ in their first character, a digit run shorter than the
maximal one is followed by a digit and hence never by the required `/`,
and the trailing `(.*)` (which the caller discards) matches at any
remainder, including the empty one. -/
def litHttps : List Char := "https://slideslive.".toList

def litCom : List Char := "com/".toList

def litDe : List Char := "de/".toList

def matchAt (s : List Char) : Option (List Char × List Char) :=
  match dropLit litHttps s with
  | Option.none => Option.none
  | some s1 =>
    match (dropLit litCom s1).orElse (fun _ => dropLit litDe s1) with
    | Option.none => Option.none
    | some s2 =>
      let digits := s2.takeWhile Char.isDigit
      match s2.dropWhile Char.isDigit with
      | '/' :: s4 => some (digits, s4.takeWhile isNameChar)
      | _ => Option.none

/-- `re.findall` scanning: try the pattern at every position, left to
right; the program keeps only the first (leftmost) match. -/
def find_ids : List Char → Option (List Char × List Char)
  | [] => Option.none
  | c :: s =>
    match matchAt (c :: s) with
    | some r => some r
    | Option.none => find_ids s

/-- `get_video_id` (source lines 48-53): the leftmost match of the URL
pattern yields `(ids[0][1], ids[0][2])`; with no match the program
prints an error and exits (modelled as `Option.none` - no pair is
produced). -/
def get_video_id (video_url : String) : Option (String × String) :=
  (find_ids video_url.toList).map (fun p => (String.mk p.1, String.mk p.2))

/-- Declarative reading of the URL pattern: the input contains, at some
position, the literal `https://slideslive.`, one of the two host
suffixes, a `/`, a digit run, a `/`, and a run free of `/` and `?`
(followed by arbitrary text).  `get_video_id` succeeds exactly on such
inputs. -/
def matchesPattern (s : String) : Prop :=
  ∃ pre host digits name rest : List Char,
    (host = "com".toList ∨ host = "de".toList) ∧
    digits.all Char.isDigit = true ∧
    name.all isNameChar = true ∧
    s.toList = pre ++ ("https://slideslive.".toList ++ (host ++ ('/' :: (digits ++ ('/' :: (name ++ rest))))))

/-! ## Helper lemmas -/

theorem string_toList_append (a b : String) : (a ++ b).toList = a.toList ++ b.toList := rfl

theorem dropLit_append (p s : List Char) : dropLit p (p ++ s) = some s := by
  induction p with
  | nil => rfl
  | cons c t ih => simpa [dropLit] using ih

theorem dropLit_eq_some (p : List Char) :
    ∀ {s r : List Char}, dropLit p s = some r → s = p ++ r := by
  induction p with
  | nil =>
    intro s r h
    simpa [dropLit] using h
  | cons c t ih =>
    intro s r h
    cases s with
    | nil => simp [dropLit] at h
    | cons d s =>
      by_cases hcd : c = d
      · subst hcd
        simp only [dropLit, if_pos rfl] at h
        simpa using ih h
      · simp [dropLit, hcd] at h

theorem tw_append (p : Char → Bool) (d r : List Char) (hd : d.all p = true) :
    (d ++ r).takeWhile p = d ++ r.takeWhile p := by
  induction d with
  | nil => rfl
  | cons c t ih =>
    simp only [List.all_cons, Bool.and_eq_true] at hd
    simp [List.takeWhile_cons, hd.1, ih hd.2]

theorem dw_append (p : Char → Bool) (d r : List Char) (hd : d.all p = true) :
    (d ++ r).dropWhile p = r.dropWhile p := by
  induction d with
  | nil => rfl
  | cons c t ih =>
    simp only [List.all_cons, Bool.and_eq_true] at hd
    simp [List.dropWhile_cons, hd.1, ih hd.2]

theorem tw_all (p : Char → Bool) (l : List Char) : (l.takeWhile p).all p = true := by
  induction l with
  | nil => rfl
  | cons c t ih =>
    by_cases hc : p c
    · simp [List.takeWhile_cons, hc, ih]
    · simp [List.takeWhile_cons, hc]

theorem tw_dw_eq (p : Char → Bool) (l : List Char) : l.takeWhile p ++ l.dropWhile p = l :=
  List.takeWhile_append_dropWhile p l

theorem dropLit_com_of_de (x : List Char) :
    dropLit litCom (litDe ++ x) = Option.none := by
  show dropLit ('c' :: 'o' :: 'm' :: '/' :: []) ('d' :: 'e' :: '/' :: x) = Option.none
  simp only [dropLit]
  rw [if_neg (by decide)]

theorem matchAt_build (hostSl digits name rest : List Char)
    (hh : hostSl = litCom ∨ hostSl = litDe)
    (hd : digits.all Char.isDigit = true)
    (hn : name.all isNameChar = true)
    (hr : rest.headD '/' = '/' ∨ rest.headD '/' = '?') :
    matchAt (litHttps ++ (hostSl ++ (digits ++ ('/' :: (name ++ rest)))))
      = some (digits, name) := by
  have hslash : Char.isDigit '/' = false := by decide
  have hname_rest : (name ++ rest).takeWhile isNameChar = name := by
    rw [tw_append isNameChar name rest hn]
    cases rest with
    | nil => simp
    | cons c t =>
      have hc : isNameChar c = false := by
        rcases hr with h | h <;> simp only [List.headD] at h <;> subst h <;> decide
      simp [List.takeWhile_cons, hc]
  have hdig_tw : (digits ++ ('/' :: (name ++ rest))).takeWhile Char.isDigit = digits := by
    rw [tw_append Char.isDigit digits _ hd]
    simp [List.takeWhile_cons, hslash]
  have hdig_dw : (digits ++ ('/' :: (name ++ rest))).dropWhile Char.isDigit
      = '/' :: (name ++ rest) := by
    rw [dw_append Char.isDigit digits _ hd]
    simp [List.dropWhile_cons, hslash]
  rcases hh with h | h
  · subst h
    simp only [matchAt, dropLit_append, Option.orElse, hdig_tw, hdig_dw, hname_rest]
  · subst h
    simp only [matchAt, dropLit_append, dropLit_com_of_de, Option.orElse, hdig_tw, hdig_dw,
      hname_rest]

theorem matchAt_eq_some {s d n : List Char} (h : matchAt s = some (d, n)) :
    ∃ hostSl s4 tail,
      (hostSl = litCom ∨ hostSl = litDe) ∧
      s = litHttps ++ (hostSl ++ (d ++ ('/' :: s4))) ∧
      d.all Char.isDigit = true ∧ s4 = n ++ tail ∧ n.all isNameChar = true := by
  cases h1 : dropLit litHttps s with
  | none => simp [matchAt, h1] at h
  | some s1 =>
    have hs : s = litHttps ++ s1 := dropLit_eq_some _ h1
    cases h2 : dropLit litCom s1 with
    | some s2 =>
      have hs1 : s1 = litCom ++ s2 := dropLit_eq_some _ h2
      simp only [matchAt, h1, h2, Option.orElse] at h
      split at h
      · rename_i s4 heq
        rw [Option.some.injEq, Prod.mk.injEq] at h
        refine ⟨litCom, s4, List.dropWhile isNameChar s4, Or.inl rfl, ?_, ?_, ?_, ?_⟩
        · rw [hs, hs1, ← h.1, ← heq, tw_dw_eq]
        · rw [← h.1]; exact tw_all _ _
        · rw [← h.2, tw_dw_eq]
        · rw [← h.2]; exact tw_all _ _
      · exact absurd h (by simp)
    | none =>
      cases h3 : dropLit litDe s1 with
      | some s2 =>
        have hs1 : s1 = litDe ++ s2 := dropLit_eq_some _ h3
        simp only [matchAt, h1, h2, h3, Option.orElse] at h
        split at h
        · rename_i s4 heq
          rw [Option.some.injEq, Prod.mk.injEq] at h
          refine ⟨litDe, s4, List.dropWhile isNameChar s4, Or.inr rfl, ?_, ?_, ?_, ?_⟩
          · rw [hs, hs1, ← h.1, ← heq, tw_dw_eq]
          · rw [← h.1]; exact tw_all _ _
          · rw [← h.2, tw_dw_eq]
          · rw [← h.2]; exact tw_all _ _
        · exact absurd h (by simp)
      | none => simp [matchAt, h1, h2, h3, Option.orElse] at h

theorem find_ids_of_matchAt {s : List Char} {r : List Char × List Char}
    (h : matchAt s = some r) : find_ids s = some r := by
  cases s with
  | nil => exact absurd h (by simp [matchAt, litHttps, dropLit])
  | cons c t => simp [find_ids, h]

theorem find_ids_eq_some {s : List Char} {r : List Char × List Char}
    (h : find_ids s = some r) :
    ∃ pre suf, s = pre ++ suf ∧ matchAt suf = some r := by
  induction s with
  | nil => simp [find_ids] at h
  | cons c t ih =>
    cases hm : matchAt (c :: t) with
    | some r2 =>
      simp only [find_ids, hm] at h
      exact ⟨[], c :: t, rfl, by rw [hm, h]⟩
    | none =>
      simp only [find_ids, hm] at h
      obtain ⟨pre, suf, hpre, hsuf⟩ := ih h
      exact ⟨c :: pre, suf, by rw [List.cons_append, ← hpre], hsuf⟩

theorem get_video_id_eq_some {s : String} {pr : String × String}
    (h : get_video_id s = some pr) : matchesPattern s := by
  unfold get_video_id at h
  cases hq : find_ids s.toList with
  | none => rw [hq] at h; simp at h
  | some q =>
    obtain ⟨d, n⟩ := q
    obtain ⟨pre, suf, hpre, hsuf⟩ := find_ids_eq_some hq
    obtain ⟨hostSl, s4, tail, hh, hdec, hdall, hs4, hnall⟩ := matchAt_eq_some hsuf
    rcases hh with h1 | h1
    · exact ⟨pre, "com".toList, d, n, tail, Or.inl rfl, hdall, hnall, by
        rw [hpre, hdec, h1, hs4]; rfl⟩
    · exact ⟨pre, "de".toList, d, n, tail, Or.inr rfl, hdall, hnall, by
        rw [hpre, hdec, h1, hs4]; rfl⟩

theorem matchesPattern_length {s : String} (h : matchesPattern s) : 23 ≤ s.toList.length := by
  obtain ⟨pre, host, digits, name, rest, hh, _, _, heq⟩ := h
  have hhost : 2 ≤ host.length := by
    rcases hh with h1 | h1 <;> subst h1 <;> decide
  have h19 : ("https://slideslive.".toList).length = 19 := by decide
  have := congrArg List.length heq
  simp only [List.length_append, List.length_cons, h19] at this
  omega

theorem dsf_fetches (oracle : String → Bool) (url path : String) (st : FsState) :
    (download_save_file oracle url path st).1.fetches = st.fetches ++ [url] := by
  unfold download_save_file
  by_cases h : oracle url <;> simp [h]

theorem foldl_dsf_fetches {α : Type} (oracle : String → Bool) (f g : α → String) :
    ∀ (l : List α) (st : FsState),
      (l.foldl (fun acc x => (download_save_file oracle (f x) (g x) acc).1) st).fetches
        = st.fetches ++ l.map f := by
  intro l
  induction l with
  | nil => intro st; simp
  | cons x t ih =>
    intro st
    simp only [List.foldl_cons, List.map_cons]
    rw [ih, dsf_fetches]
    simp [List.append_assoc]

/-! ## Claims -/

/-- Claim C1.  The claim says the local file path written into the
playlist equals, character for character, the local file path used when
downloading the slide image under the same schema and size token, in
particular for JSON-schema slide lists.  The code violates this (and the
spec calls such a mismatch a correctness bug, so this is a code bug, not
a spec error): for a JSON slide the download writes
`<folder>/<name>-<resolvedSize>-<time><ext>` while the playlist line
refers to `<time>-<name>-<sizeToken>.jpg`.  Evaluation at the failing
input: slide name `slide_1`, extension `.png`, time `1234`, size token
`big` (resolved to `1080` for the download only). -/
theorem c1_json_playlist_naming_mismatch :
    json_image_file_path "38902-talk" "slide_1" (size_conversion_get "big")
        (PyVal.int 1234) ".png"
      = "38902-talk/slide_1-1080-1234.png" ∧
    concat_row_file_path (concat_row_of_json ⟨"slide_1", ".png", PyVal.int 1234⟩) "big"
      = "1234-slide_1-big.jpg" ∧
    (json_image_file_path "38902-talk" "slide_1" (size_conversion_get "big")
        (PyVal.int 1234) ".png"
      == concat_row_file_path (concat_row_of_json ⟨"slide_1", ".png", PyVal.int 1234⟩) "big")
      = false := by
  exact ⟨rfl, rfl, rfl⟩

/-- Claim C2, counterexample.  The claim says every fetch - metadata
file or per-slide image - is skipped when the local file already
exists, so invoking the fetch layer twice performs exactly one network
fetch.  For per-slide images this is false: `download_slides_json`
calls `download_save_file` unconditionally, so running the image
download twice for the same slide performs two network fetches (the
count is 2, not 1). -/
theorem c2_fetch_twice_refetches_image :
    (download_slides_json (fun _ => true) "38902" "talk" [⟨"slide_1", ".png", PyVal.int 0⟩]
        (PyVal.int 1080) "https://cdn"
        (download_slides_json (fun _ => true) "38902" "talk" [⟨"slide_1", ".png", PyVal.int 0⟩]
          (PyVal.int 1080) "https://cdn" ⟨[], []⟩)).fetches.length = 2 ∧
    ((download_slides_json (fun _ => true) "38902" "talk" [⟨"slide_1", ".png", PyVal.int 0⟩]
        (PyVal.int 1080) "https://cdn"
        (download_slides_json (fun _ => true) "38902" "talk" [⟨"slide_1", ".png", PyVal.int 0⟩]
          (PyVal.int 1080) "https://cdn" ⟨[], []⟩)).fetches.length == 1) = false := by
  exact ⟨rfl, rfl⟩

/-- Claim C2, amended.  Only the metadata fetchers are cached - both of
them: when `<folder>/slides.json` respectively `<folder>/<id>.xml`
already exists the call is a no-op treated as success, and after one
successful fetch a second invocation performs no further network fetch
(one fetch total); the per-slide image downloaders of either schema, by
contrast, perform one network fetch per slide on every invocation
regardless of the existing files. -/
theorem c2_fetch_cache_metadata_only :
    (∀ (oracle : String → Bool) (base_url video_id folder : String) (st : FsState),
        folder ++ "/slides.json" ∈ st.files →
        download_slides_info_json oracle base_url video_id folder st = (st, Except.ok ())) ∧
    (∀ (oracle : String → Bool) (base_url video_id folder : String) (st : FsState),
        folder ++ "/slides.json" ∉ st.files →
        oracle (base_url ++ "/" ++ video_id ++ "/v6/slides.json") = true →
        (download_slides_info_json oracle base_url video_id folder st).1.fetches
            = st.fetches ++ [base_url ++ "/" ++ video_id ++ "/v6/slides.json"] ∧
        download_slides_info_json oracle base_url video_id folder
            (download_slides_info_json oracle base_url video_id folder st).1
          = ((download_slides_info_json oracle base_url video_id folder st).1,
             Except.ok ())) ∧
    (∀ (oracle : String → Bool) (base_xml_url video_id folder : String) (st : FsState),
        folder ++ "/" ++ video_id ++ ".xml" ∈ st.files →
        download_slides_info_xml oracle base_xml_url video_id folder st
          = (st, Except.ok ())) ∧
    (∀ (oracle : String → Bool) (base_xml_url video_id folder : String) (st : FsState),
        folder ++ "/" ++ video_id ++ ".xml" ∉ st.files →
        oracle (base_xml_url ++ "/" ++ video_id ++ "/" ++ video_id ++ ".xml") = true →
        (download_slides_info_xml oracle base_xml_url video_id folder st).1.fetches
            = st.fetches ++ [base_xml_url ++ "/" ++ video_id ++ "/" ++ video_id ++ ".xml"] ∧
        download_slides_info_xml oracle base_xml_url video_id folder
            (download_slides_info_xml oracle base_xml_url video_id folder st).1
          = ((download_slides_info_xml oracle base_xml_url video_id folder st).1,
             Except.ok ())) ∧
    (∀ (oracle : String → Bool) (video_id video_name : String) (slide : ParsedSlide)
        (size : PyVal) (base_url : String) (st : FsState),
        (download_slides_json oracle video_id video_name [slide] size base_url st).fetches.length
          = st.fetches.length + 1) ∧
    (∀ (oracle : String → Bool) (video_id video_name : String) (row : XmlRow)
        (size : String) (base_url : String) (st : FsState),
        (download_slides_xml oracle video_id video_name [row] size base_url st).fetches.length
          = st.fetches.length + 1) := by
  refine ⟨?_, ?_, ?_, ?_, ?_, ?_⟩
  · intro oracle b v f st hmem
    simp [download_slides_info_json, hmem]
  · intro oracle b v f st hmem horacle
    have hfirst : download_slides_info_json oracle b v f st
        = ({ files := st.files ++ [f ++ "/slides.json"],
             fetches := st.fetches ++ [b ++ "/" ++ v ++ "/v6/slides.json"] }, Except.ok ()) := by
      simp [download_slides_info_json, hmem, download_save_file, horacle]
    constructor
    · rw [hfirst]
    · rw [hfirst]
      simp [download_slides_info_json]
  · intro oracle b v f st hmem
    simp [download_slides_info_xml, hmem]
  · intro oracle b v f st hmem horacle
    have hfirst : download_slides_info_xml oracle b v f st
        = ({ files := st.files ++ [f ++ "/" ++ v ++ ".xml"],
             fetches := st.fetches ++ [b ++ "/" ++ v ++ "/" ++ v ++ ".xml"] }, Except.ok ()) := by
      simp [download_slides_info_xml, hmem, download_save_file, horacle]
    constructor
    · rw [hfirst]
    · rw [hfirst]
      simp [download_slides_info_xml]
  · intro oracle vid vn slide size base st
    simp [download_slides_json, List.foldl_cons, List.foldl_nil, dsf_fetches]
  · intro oracle vid vn row size base st
    simp [download_slides_xml, List.foldl_cons, List.foldl_nil, dsf_fetches]

/-- Witness for the amended claim C2, at concrete inputs: a cached
metadata call is a no-op and a fresh metadata call fetches once with the
repeated call fetching nothing further, for the JSON and for the XML
metadata fetcher alike; a one-slide image download of either schema adds
one fetch even on a state where the image file already exists. -/
theorem c2_fetch_cache_metadata_only_witness :
    download_slides_info_json (fun _ => true) "https://m" "38902" "38902-talk"
        ⟨["38902-talk/slides.json"], []⟩
      = (⟨["38902-talk/slides.json"], []⟩, Except.ok ()) ∧
    (download_slides_info_json (fun _ => true) "https://m" "38902" "38902-talk"
        ⟨[], []⟩).1.fetches = ["https://m/38902/v6/slides.json"] ∧
    download_slides_info_json (fun _ => true) "https://m" "38902" "38902-talk"
        (download_slides_info_json (fun _ => true) "https://m" "38902" "38902-talk"
          ⟨[], []⟩).1
      = ((download_slides_info_json (fun _ => true) "https://m" "38902" "38902-talk"
          ⟨[], []⟩).1, Except.ok ()) ∧
    download_slides_info_xml (fun _ => true) "https://m" "38902" "38902-talk"
        ⟨["38902-talk/38902.xml"], []⟩
      = (⟨["38902-talk/38902.xml"], []⟩, Except.ok ()) ∧
    (download_slides_info_xml (fun _ => true) "https://m" "38902" "38902-talk"
        ⟨[], []⟩).1.fetches = ["https://m/38902/38902.xml"] ∧
    download_slides_info_xml (fun _ => true) "https://m" "38902" "38902-talk"
        (download_slides_info_xml (fun _ => true) "https://m" "38902" "38902-talk"
          ⟨[], []⟩).1
      = ((download_slides_info_xml (fun _ => true) "https://m" "38902" "38902-talk"
          ⟨[], []⟩).1, Except.ok ()) ∧
    (download_slides_json (fun _ => true) "38902" "talk" [⟨"s1", ".png", PyVal.int 0⟩]
        (PyVal.int 1080) "https://cdn"
        ⟨["38902-talk/s1-1080-0.png"], []⟩).fetches.length = 1 ∧
    (download_slides_xml (fun _ => true) "38902" "talk"
        [[("slideName", some "s1"), ("time", some "2000")]] "big" "https://old"
        ⟨["38902-talk/2000-s1-big.jpg"], []⟩).fetches.length = 1 := by
  refine ⟨?_, ?_, ?_, ?_, ?_, ?_, ?_, ?_⟩
  · exact c2_fetch_cache_metadata_only.1 (fun _ => true) "https://m" "38902" "38902-talk"
      ⟨["38902-talk/slides.json"], []⟩ (by decide)
  · have h := (c2_fetch_cache_metadata_only.2.1 (fun _ => true) "https://m" "38902"
      "38902-talk" ⟨[], []⟩ (by decide) rfl).1
    simpa using h
  · exact (c2_fetch_cache_metadata_only.2.1 (fun _ => true) "https://m" "38902"
      "38902-talk" ⟨[], []⟩ (by decide) rfl).2
  · exact c2_fetch_cache_metadata_only.2.2.1 (fun _ => true) "https://m" "38902"
      "38902-talk" ⟨["38902-talk/38902.xml"], []⟩ (by decide)
  · have h := (c2_fetch_cache_metadata_only.2.2.2.1 (fun _ => true) "https://m" "38902"
      "38902-talk" ⟨[], []⟩ (by decide) rfl).1
    simpa using h
  · exact (c2_fetch_cache_metadata_only.2.2.2.1 (fun _ => true) "https://m" "38902"
      "38902-talk" ⟨[], []⟩ (by decide) rfl).2
  · exact c2_fetch_cache_metadata_only.2.2.2.2.1 (fun _ => true) "38902" "talk"
      ⟨"s1", ".png", PyVal.int 0⟩ (PyVal.int 1080) "https://cdn"
      ⟨["38902-talk/s1-1080-0.png"], []⟩
  · exact c2_fetch_cache_metadata_only.2.2.2.2.2 (fun _ => true) "38902" "talk"
      [("slideName", some "s1"), ("time", some "2000")] "big" "https://old"
      ⟨["38902-talk/2000-s1-big.jpg"], []⟩

/-- Claim C3.  The claim says that for every row of a valid XML manifest
the normalized record's `timestampMillis` equals `timeSec * 1000` as an
exact integer computation.  The code never performs that computation
(this is a code bug: the spec's conversion is clearly the intent): the
normalizer keeps every XML cell as a string (first conjunct - the
normalized row for `timeSec` text `2`, `time` text `2000` carries the
strings, no integer 2000 anywhere), and the only consumer of `timeSec`,
the playlist builder, then raises `TypeError` on the eagerly evaluated
string division `row['time']/1000` before writing a single line (second
conjunct). -/
theorem c3_xml_time_fields_raise_type_error :
    (parse_xml [[("orderId", some "1"), ("timeSec", some "2"), ("time", some "2000"),
        ("slideName", some "s")]] ["orderId", "timeSec", "time", "slideName"]).map
        concat_row_of_xml
      = [⟨some (PyVal.str "2"), PyVal.str "2000", PyVal.str "s"⟩] ∧
    create_ffmpeg_concat_file
        ((parse_xml [[("orderId", some "1"), ("timeSec", some "2"), ("time", some "2000"),
            ("slideName", some "s")]] ["orderId", "timeSec", "time", "slideName"]).map
          concat_row_of_xml) "big"
      = ([], Except.error PyErr.typeError) := by
  exact ⟨rfl, rfl⟩

/-- Claim C4: if the primary JSON metadata path fails for any reason
whatsoever (the bare `except:` catches every exception kind, represented
by an arbitrary error value), `download_slides_info` falls back to the
XML attempt, and a successful fallback is the DataFrame variant, which
`__main__` dispatches as XML schema. -/
theorem c4_json_failure_falls_back_to_xml :
    ∀ (e : PyErr) (xmlAttempt : Except PyErr (List XmlRow)),
      download_slides_info (Except.error e) xmlAttempt
          = xmlAttempt.map SlidesInfo.xmlInfo ∧
      ∀ rows : List XmlRow, xmlAttempt = Except.ok rows →
        download_slides_info (Except.error e) xmlAttempt
            = Except.ok (SlidesInfo.xmlInfo rows) ∧
        ∀ info : SlidesInfo,
          download_slides_info (Except.error e) xmlAttempt = Except.ok info →
          schemaOf info = Schema.xml := by
  intro e xa
  refine ⟨rfl, ?_⟩
  intro rows hr
  subst hr
  refine ⟨rfl, ?_⟩
  intro info hinfo
  rw [show download_slides_info (Except.error e) (Except.ok rows)
      = Except.ok (SlidesInfo.xmlInfo rows) from rfl] at hinfo
  injection hinfo with h
  rw [← h]
  rfl

/-- Witness for claim C4 at a concrete input: a failed JSON attempt and
a one-row XML attempt resolve to the XML-tagged variant, dispatched as
XML schema. -/
theorem c4_json_failure_falls_back_to_xml_witness :
    download_slides_info (Except.error PyErr.fetchError)
        (Except.ok ([[("orderId", some "1")]] : List XmlRow))
      = Except.ok (SlidesInfo.xmlInfo [[("orderId", some "1")]]) ∧
    schemaOf (SlidesInfo.xmlInfo [[("orderId", some "1")]]) = Schema.xml := by
  have h := (c4_json_failure_falls_back_to_xml PyErr.fetchError
      (Except.ok [[("orderId", some "1")]])).2 [[("orderId", some "1")]] rfl
  exact ⟨h.1, h.2 (SlidesInfo.xmlInfo [[("orderId", some "1")]]) h.1⟩

/-- Claim C5: for the 3-slide JSON-style slide list with timestamps
0, 2000, 5000 ms and size token `big`, the playlist is exactly the
seven lines below - two inner duration lines with values 2 and 3, a
trailing `duration 30`, the last file path appearing twice (before its
duration and as the bare final entry), 4 file lines and 3 duration
lines in total. -/
theorem c5_playlist_three_slides :
    create_ffmpeg_concat_file
        ([⟨"s1", ".png", PyVal.int 0⟩, ⟨"s2", ".png", PyVal.int 2000⟩,
          ⟨"s3", ".png", PyVal.int 5000⟩].map concat_row_of_json) "big"
      = ([fileLine "0-s1-big.jpg", durLine 2, fileLine "2000-s2-big.jpg", durLine 3,
          fileLine "5000-s3-big.jpg", durLine 30, fileLine "5000-s3-big.jpg"],
         Except.ok ()) ∧
    (create_ffmpeg_concat_file
        ([⟨"s1", ".png", PyVal.int 0⟩, ⟨"s2", ".png", PyVal.int 2000⟩,
          ⟨"s3", ".png", PyVal.int 5000⟩].map concat_row_of_json) "big").1.countP
        (fun l => l.toList.take 5 == "file ".toList) = 4 ∧
    (create_ffmpeg_concat_file
        ([⟨"s1", ".png", PyVal.int 0⟩, ⟨"s2", ".png", PyVal.int 2000⟩,
          ⟨"s3", ".png", PyVal.int 5000⟩].map concat_row_of_json) "big").1.countP
        (fun l => l.toList.take 9 == "duration ".toList) = 3 ∧
    (create_ffmpeg_concat_file
        ([⟨"s1", ".png", PyVal.int 0⟩, ⟨"s2", ".png", PyVal.int 2000⟩,
          ⟨"s3", ".png", PyVal.int 5000⟩].map concat_row_of_json) "big").1.count
        (fileLine "5000-s3-big.jpg") = 2 ∧
    (create_ffmpeg_concat_file
        ([⟨"s1", ".png", PyVal.int 0⟩, ⟨"s2", ".png", PyVal.int 2000⟩,
          ⟨"s3", ".png", PyVal.int 5000⟩].map concat_row_of_json) "big").1.filter
        (fun l => l.toList.take 9 == "duration ".toList)
      = [durLine 2, durLine 3, durLine 30] := by
  exact ⟨rfl, rfl, rfl, rfl, rfl⟩

/-- Claim C6: for every URL of the shape
`https://slideslive.<host>/<id>/<name>...` with host `com` or `de`, id a
digit run and name free of `/` and `?` (the following text, when
present, starting at a `/` or a `?` as in any URL), `get_video_id`
returns exactly those two path segments; and for every string that
nowhere contains an instance of the pattern, `get_video_id` produces no
pair (the program prints an error and exits). -/
theorem c6_url_pattern_resolution :
    (∀ host digits name rest : List Char,
        (host = "com".toList ∨ host = "de".toList) →
        digits.all Char.isDigit = true →
        name.all isNameChar = true →
        (rest.headD '/' = '/' ∨ rest.headD '/' = '?') →
        get_video_id (String.mk ("https://slideslive.".toList
            ++ (host ++ ('/' :: (digits ++ ('/' :: (name ++ rest)))))))
          = some (String.mk digits, String.mk name)) ∧
    (∀ s : String, ¬ matchesPattern s → get_video_id s = Option.none) := by
  constructor
  · intro host digits name rest hh hd hn hr
    have hh2 : host ++ ['/'] = litCom ∨ host ++ ['/'] = litDe := by
      rcases hh with h | h <;> subst h
      · exact Or.inl (by decide)
      · exact Or.inr (by decide)
    have hb := matchAt_build (host ++ ['/']) digits name rest hh2 hd hn hr
    have harg : litHttps ++ ((host ++ ['/']) ++ (digits ++ ('/' :: (name ++ rest))))
        = "https://slideslive.".toList
            ++ (host ++ ('/' :: (digits ++ ('/' :: (name ++ rest))))) := by
      simp [litHttps, List.append_assoc]
    rw [harg] at hb
    have hf := find_ids_of_matchAt hb
    unfold get_video_id
    rw [show (String.mk ("https://slideslive.".toList
        ++ (host ++ ('/' :: (digits ++ ('/' :: (name ++ rest))))))).toList
        = "https://slideslive.".toList
            ++ (host ++ ('/' :: (digits ++ ('/' :: (name ++ rest))))) from rfl]
    rw [hf]
    rfl
  · intro s hm
    cases hg : get_video_id s with
    | none => rfl
    | some pr => exact absurd (get_video_id_eq_some hg) hm

/-- Witness for claim C6: a concrete matching URL resolves to its id and
name segments; a concrete non-matching string (too short to contain the
pattern) yields no pair. -/
theorem c6_url_pattern_resolution_witness :
    get_video_id ("https://slideslive.com/38902/another-talk?t=1")
      = some ("38902", "another-talk") ∧
    get_video_id ("ftp://x") = Option.none := by
  constructor
  · have h := c6_url_pattern_resolution.1 ("com".toList) ("38902".toList)
      ("another-talk".toList) ("?t=1".toList) (Or.inl rfl) (by decide) (by decide)
      (Or.inr (by decide))
    exact h
  · exact c6_url_pattern_resolution.2 ("ftp://x")
      (fun hm => absurd (matchesPattern_length hm) (by decide))

/-- Claim C7: the size alias `big` resolves to the pixel height 1080 and
`medium` to 540, and any other size token is passed through verbatim as
the `h=` height parameter of the JSON-schema remote image URL. -/
theorem c7_size_alias_resolution :
    size_conversion_get "big" = PyVal.int 1080 ∧
    pyStr (size_conversion_get "big") = "1080" ∧
    size_conversion_get "medium" = PyVal.int 540 ∧
    ∀ s : String, s ≠ "big" → s ≠ "medium" →
      size_conversion_get s = PyVal.str s ∧
      ∀ base_url video_id slide_name : String,
        json_image_url base_url video_id slide_name (size_conversion_get s)
          = base_url ++ "/" ++ video_id ++ "/slides/" ++ slide_name ++ "?h=" ++ s ++
            "&f=webp&s=lambda&accelerate_s3=1" := by
  refine ⟨rfl, rfl, rfl, ?_⟩
  intro s h1 h2
  have hs : size_conversion_get s = PyVal.str s := by
    simp [size_conversion_get, h1, h2]
  refine ⟨hs, ?_⟩
  intro b v n
  rw [hs]
  rfl

/-- Witness for claim C7 at the unrecognized token `720`: it resolves to
itself and appears verbatim as the height parameter. -/
theorem c7_size_alias_resolution_witness :
    size_conversion_get "720" = PyVal.str "720" ∧
    json_image_url "https://cdn" "38902" "s1.png" (size_conversion_get "720")
      = "https://cdn/38902/slides/s1.png?h=720&f=webp&s=lambda&accelerate_s3=1" := by
  have h := c7_size_alias_resolution.2.2.2 "720" (by decide) (by decide)
  exact ⟨h.1, h.2 "https://cdn" "38902" "s1.png"⟩

/-- Claim C8: whatever the per-URL fetch outcomes (the oracle), both
image downloaders attempt every slide of the run - the fetch log grows
by exactly one entry per slide, failures included, because the
`try/except` around each `download_save_file` call swallows the
exception and the loop continues - and the downloaders are total (they
return a state, never an exception); metadata-level failure, by
contrast, propagates as a fatal error when both schema attempts fail. -/
theorem c8_image_failures_nonfatal :
    (∀ (oracle : String → Bool) (video_id video_name : String)
        (slides : List ParsedSlide) (size : PyVal) (base_url : String) (st : FsState),
        (download_slides_json oracle video_id video_name slides size base_url st).fetches
          = st.fetches ++ slides.map (fun slide =>
              json_image_url base_url video_id (slide.slideName ++ slide.slideExt) size)) ∧
    (∀ (oracle : String → Bool) (video_id video_name : String)
        (rows : List XmlRow) (size : String) (base_url : String) (st : FsState),
        (download_slides_xml oracle video_id video_name rows size base_url st).fetches
          = st.fetches ++ rows.map (fun row =>
              xml_image_url base_url video_id
                (match row_get row "slideName" with
                 | some c => pyCell c
                 | Option.none => PyVal.none) size)) ∧
    (∀ e e2 : PyErr,
        download_slides_info (Except.error e) (Except.error e2) = Except.error e2) := by
  refine ⟨?_, ?_, ?_⟩
  · intro oracle vid vn slides size base st
    exact foldl_dsf_fetches oracle _ _ slides st
  · intro oracle vid vn rows size base st
    exact foldl_dsf_fetches oracle _ _ rows st
  · intro e e2
    rfl

/-- Claim C9: `parse_json` preserves the slide count and order of a
syntactically valid JSON manifest, and copies each slide's raw `time`
field (and image name and extension) unchanged into the normalized
record at the same index. -/
theorem c9_parse_json_preserves_slides :
    ∀ m : JsonManifest,
      (parse_json m).slides.length = m.slides.length ∧
      ∀ (i : Nat) (h1 : i < (parse_json m).slides.length) (h2 : i < m.slides.length),
        ((parse_json m).slides.get ⟨i, h1⟩).time = (m.slides.get ⟨i, h2⟩).time ∧
        ((parse_json m).slides.get ⟨i, h1⟩).slideName = (m.slides.get ⟨i, h2⟩).image.name ∧
        ((parse_json m).slides.get ⟨i, h1⟩).slideExt
          = (m.slides.get ⟨i, h2⟩).image.extname := by
  intro m
  constructor
  · simp [parse_json]
  · intro i h1 h2
    simp [parse_json, List.get_eq_getElem, List.getElem_map]

/-- Witness for claim C9 on a one-slide manifest with time 7. -/
theorem c9_parse_json_preserves_slides_witness :
    (parse_json ⟨[⟨⟨"s1", ".png"⟩, PyVal.int 7⟩]⟩).slides.length = 1 ∧
    ((parse_json ⟨[⟨⟨"s1", ".png"⟩, PyVal.int 7⟩]⟩).slides.get ⟨0, by decide⟩).time
      = PyVal.int 7 := by
  have h := c9_parse_json_preserves_slides ⟨[⟨⟨"s1", ".png"⟩, PyVal.int 7⟩]⟩
  exact ⟨h.1, (h.2 0 (by decide) (by decide)).1⟩

/-- Claim C10: the URL pattern does not require a non-empty id - a URL
with an empty id segment (zero digits, two consecutive slashes) is
accepted, and the resolver returns the empty string as the id rather
than failing. -/
theorem c10_empty_id_accepted :
    ∀ name rest : List Char,
      name.all isNameChar = true →
      (rest.headD '/' = '/' ∨ rest.headD '/' = '?') →
      get_video_id (String.mk ("https://slideslive.com//".toList ++ (name ++ rest)))
        = some ("", String.mk name) := by
  intro name rest hn hr
  have hb := matchAt_build litCom [] name rest (Or.inl rfl) (by decide) hn hr
  have harg : litHttps ++ (litCom ++ (([] : List Char) ++ ('/' :: (name ++ rest))))
      = "https://slideslive.com//".toList ++ (name ++ rest) := rfl
  rw [harg] at hb
  have hf := find_ids_of_matchAt hb
  unfold get_video_id
  rw [show (String.mk ("https://slideslive.com//".toList ++ (name ++ rest))).toList
      = "https://slideslive.com//".toList ++ (name ++ rest) from rfl]
  rw [hf]
  rfl

/-- Witness for claim C10: the concrete URL with an empty id segment
resolves to the empty id and the name segment. -/
theorem c10_empty_id_accepted_witness :
    get_video_id ("https://slideslive.com//some-talk") = some ("", "some-talk") := by
  have h := c10_empty_id_accepted ("some-talk".toList) [] (by decide) (Or.inl rfl)
  exact h
